import Mathlib

/-
Verification of the geo-web repository: a browser client (src/app/page.tsx)
that submits an image to a server-side proxy route (src/unnamed/part_000),
which forwards it to an external geolocation backend and relays the JSON
response.  JavaScript numbers are modelled as rationals (every numeric value
that flows through these claims is a finite decimal literal), JSON values as
an inductive type, and JS exceptions raised by the engine (SyntaxError from
JSON parsing, TypeError from property access on null) as an explicitly
quantified message string.
-/

namespace GeoWeb

/-- An exact decimal number `man / 10 ^ exp`, the model of the JavaScript
numbers in this repository (every number flowing through these claims is a
finite decimal literal and every operation on one is exact). -/
structure Dec where
  man : Int
  exp : Nat

/-- Exact multiplication of decimals. -/
def Dec.mul (a b : Dec) : Dec := ⟨a.man * b.man, a.exp + b.exp⟩

/-- The decimal denoting a natural number. -/
def Dec.ofNat (n : Nat) : Dec := ⟨n, 0⟩

/-- JSON values as produced by JSON.parse / consumed by JSON.stringify. -/
inductive Json where
  | null
  | bool (b : Bool)
  | num (q : Dec)
  | str (s : String)
  | arr (xs : List Json)
  | obj (fields : List (String × Json))

/-- Whitespace skipping for the JSON grammar. -/
def skipWs (cs : List Char) : List Char :=
  cs.dropWhile (fun c => c = ' ' ∨ c = '\n' ∨ c = '\t' ∨ c = '\r')

/-- Value of a hexadecimal digit, for \uXXXX escapes. -/
def hexVal (c : Char) : Option Nat :=
  if '0' ≤ c ∧ c ≤ '9' then some (c.toNat - 48)
  else if 'a' ≤ c ∧ c ≤ 'f' then some (c.toNat - 87)
  else if 'A' ≤ c ∧ c ≤ 'F' then some (c.toNat - 55)
  else none

/-- Decode the characters of a JSON string literal after its opening quote,
returning the decoded characters and the input remaining after the closing
quote.  Handles the escape sequences of the JSON grammar. -/
def unescapeChars : List Char → Option (List Char × List Char)
  | [] => none
  | '"' :: r => some ([], r)
  | '\\' :: '"' :: r => (unescapeChars r).map (fun p => ('"' :: p.1, p.2))
  | '\\' :: '\\' :: r => (unescapeChars r).map (fun p => ('\\' :: p.1, p.2))
  | '\\' :: '/' :: r => (unescapeChars r).map (fun p => ('/' :: p.1, p.2))
  | '\\' :: 'b' :: r => (unescapeChars r).map (fun p => ('\x08' :: p.1, p.2))
  | '\\' :: 'f' :: r => (unescapeChars r).map (fun p => ('\x0c' :: p.1, p.2))
  | '\\' :: 'n' :: r => (unescapeChars r).map (fun p => ('\n' :: p.1, p.2))
  | '\\' :: 'r' :: r => (unescapeChars r).map (fun p => ('\r' :: p.1, p.2))
  | '\\' :: 't' :: r => (unescapeChars r).map (fun p => ('\t' :: p.1, p.2))
  | '\\' :: 'u' :: a :: b :: c :: d :: r =>
    match hexVal a, hexVal b, hexVal c, hexVal d with
    | some va, some vb, some vc, some vd =>
      (unescapeChars r).map (fun p =>
        (Char.ofNat (((va * 16 + vb) * 16 + vc) * 16 + vd) :: p.1, p.2))
    | _, _, _, _ => none
  | '\\' :: _ => none
  | c :: r => (unescapeChars r).map (fun p => (c :: p.1, p.2))

/-- Parse a JSON string body (after the opening quote). -/
def unescape (cs : List Char) : Option (String × List Char) :=
  (unescapeChars cs).map (fun p => (String.mk p.1, p.2))

/-- Numeric value of a digit sequence. -/
def digitsVal (ds : List Char) : Nat :=
  ds.foldl (fun a c => a * 10 + (c.toNat - 48)) 0

/-- Parse a JSON number (optional minus, integer part, optional fraction,
optional exponent), as an exact decimal. -/
def parseNum (cs : List Char) : Option (Json × List Char) :=
  let signed : Bool × List Char :=
    match cs with
    | '-' :: r => (true, r)
    | _ => (false, cs)
  let neg := signed.1
  let cs1 := signed.2
  let intDs := cs1.takeWhile Char.isDigit
  let cs2 := cs1.drop intDs.length
  if intDs.isEmpty then none
  else
    let fracStep : List Char × List Char × Bool :=
      match cs2 with
      | '.' :: r =>
        let ds := r.takeWhile Char.isDigit
        (ds, r.drop ds.length, !ds.isEmpty)
      | _ => ([], cs2, true)
    let fracDs := fracStep.1
    let cs3 := fracStep.2.1
    let fracOk := fracStep.2.2
    let expStep : Int × List Char × Bool :=
      match cs3 with
      | 'e' :: r =>
        let se : Int × List Char :=
          match r with
          | '+' :: r2 => (1, r2)
          | '-' :: r2 => (-1, r2)
          | _ => (1, r)
        let eDs := se.2.takeWhile Char.isDigit
        if eDs.isEmpty then (0, cs3, false)
        else (se.1 * (digitsVal eDs : Int), se.2.drop eDs.length, true)
      | 'E' :: r =>
        let se : Int × List Char :=
          match r with
          | '+' :: r2 => (1, r2)
          | '-' :: r2 => (-1, r2)
          | _ => (1, r)
        let eDs := se.2.takeWhile Char.isDigit
        if eDs.isEmpty then (0, cs3, false)
        else (se.1 * (digitsVal eDs : Int), se.2.drop eDs.length, true)
      | _ => (0, cs3, true)
    let expVal := expStep.1
    let cs4 := expStep.2.1
    let expOk := expStep.2.2
    if fracOk && expOk then
      let baseMan : Int :=
        (digitsVal intDs * 10 ^ fracDs.length + digitsVal fracDs : Nat)
      let m : Int := if neg then -baseMan else baseMan
      let v : Dec :=
        if 0 ≤ expVal then ⟨m * 10 ^ expVal.toNat, fracDs.length⟩
        else ⟨m, fracDs.length + (-expVal).toNat⟩
      some (.num v, cs4)
    else none

mutual

/-- Recursive-descent JSON value parsing, fuel-bounded. -/
def parseVal : Nat → List Char → Option (Json × List Char)
  | 0, _ => none
  | fuel + 1, cs =>
    match cs with
    | [] => none
    | c :: rest =>
      if c = '\x7b' then
        match skipWs rest with
        | '\x7d' :: r => some (.obj [], r)
        | cs2 => parseMembers fuel cs2 []
      else if c = '[' then
        match skipWs rest with
        | ']' :: r => some (.arr [], r)
        | cs2 => parseElems fuel cs2 []
      else if c = '"' then
        (unescape rest).map (fun p => (Json.str p.1, p.2))
      else if c = 't' then
        match rest with
        | 'r' :: 'u' :: 'e' :: r => some (.bool true, r)
        | _ => none
      else if c = 'f' then
        match rest with
        | 'a' :: 'l' :: 's' :: 'e' :: r => some (.bool false, r)
        | _ => none
      else if c = 'n' then
        match rest with
        | 'u' :: 'l' :: 'l' :: r => some (.null, r)
        | _ => none
      else parseNum cs

/-- Parse object members after the opening brace (nonempty member list). -/
def parseMembers : Nat → List Char → List (String × Json) →
    Option (Json × List Char)
  | 0, _, _ => none
  | fuel + 1, cs, acc =>
    match skipWs cs with
    | '"' :: r =>
      match unescape r with
      | some (k, r2) =>
        match skipWs r2 with
        | ':' :: r3 =>
          match parseVal fuel (skipWs r3) with
          | some (v, r4) =>
            match skipWs r4 with
            | ',' :: r5 => parseMembers fuel r5 (acc ++ [(k, v)])
            | '\x7d' :: r5 => some (.obj (acc ++ [(k, v)]), r5)
            | _ => none
          | none => none
        | _ => none
      | none => none
    | _ => none

/-- Parse array elements after the opening bracket (nonempty element list). -/
def parseElems : Nat → List Char → List Json → Option (Json × List Char)
  | 0, _, _ => none
  | fuel + 1, cs, acc =>
    match parseVal fuel (skipWs cs) with
    | some (v, r) =>
      match skipWs r with
      | ',' :: r2 => parseElems fuel r2 (acc ++ [v])
      | ']' :: r2 => some (.arr (acc ++ [v]), r2)
      | _ => none
    | none => none

end

/-- JSON.parse: parse a complete document, requiring full consumption.
Returns none when the body is not valid JSON (JSON.parse throws). -/
def jsonParse (s : String) : Option Json :=
  match parseVal (s.data.length + 1) (skipWs s.data) with
  | some (j, rest) => if (skipWs rest).isEmpty then some j else none
  | none => none

/-- Digits of a natural number, most significant first, with a digit-count
fuel (40 digits covers every number that can arise here). -/
def digitChars : Nat → Nat → List Char
  | 0, _ => []
  | fuel + 1, n =>
    if n < 10 then [Char.ofNat (48 + n)]
    else digitChars fuel (n / 10) ++ [Char.ofNat (48 + n % 10)]

/-- Decimal string of a natural number. -/
def natToString (n : Nat) : String := String.mk (digitChars 40 n)

/-- Decimal string of an integer. -/
def intToString : Int → String
  | .ofNat n => natToString n
  | .negSucc n => "-" ++ natToString (n + 1)

/-- Drop factors of ten shared by the mantissa and the scale, to reach the
shortest exact decimal expansion. -/
def stripTens : Int → Nat → Int × Nat
  | m, 0 => (m, 0)
  | m, e + 1 => if m % 10 = 0 then stripTens (m / 10) e else (m, e + 1)

/-- JavaScript number-to-string conversion for the exact decimals arising
here: an integer prints without a point, otherwise the shortest exact
decimal expansion is printed. -/
def jsNumToString (x : Dec) : String :=
  let p := stripTens x.man x.exp
  let m := p.1
  let e := p.2
  if e = 0 then intToString m
  else
    let a := m.natAbs
    let frac := natToString (a % 10 ^ e)
    (if m < 0 then "-" else "") ++ natToString (a / 10 ^ e) ++ "." ++
      String.mk (List.replicate (e - frac.length) '0') ++ frac

/-- Escape one character for a JSON string literal, as JSON.stringify does. -/
def escChar (c : Char) : String :=
  if c = '"' then "\\\""
  else if c = '\\' then "\\\\"
  else if c = '\n' then "\\n"
  else if c = '\r' then "\\r"
  else if c = '\t' then "\\t"
  else if c = '\x08' then "\\b"
  else if c = '\x0c' then "\\f"
  else if c.toNat < 32 then
    let hx := fun (n : Nat) =>
      if n < 10 then String.mk [Char.ofNat (48 + n)]
      else String.mk [Char.ofNat (87 + n)]
    "\\u00" ++ hx (c.toNat / 16) ++ hx (c.toNat % 16)
  else String.mk [c]

/-- Serialize a string as a quoted JSON string literal. -/
def quoteStr (s : String) : String :=
  "\"" ++ s.data.foldl (fun acc c => acc ++ escChar c) "" ++ "\""

mutual

/-- JSON.stringify for our JSON values (no extra whitespace, as in the
default used by NextResponse.json). -/
def serialize : Json → String
  | .null => "null"
  | .bool b => if b then "true" else "false"
  | .num q => jsNumToString q
  | .str s => quoteStr s
  | .arr xs => "[" ++ serializeList xs ++ "]"
  | .obj fs => "\x7b" ++ serializeObj fs ++ "\x7d"

/-- Comma-separated serialization of array elements. -/
def serializeList : List Json → String
  | [] => ""
  | [j] => serialize j
  | j :: js => serialize j ++ "," ++ serializeList js

/-- Comma-separated serialization of object members. -/
def serializeObj : List (String × Json) → String
  | [] => ""
  | [(k, v)] => quoteStr k ++ ":" ++ serialize v
  | (k, v) :: fs => quoteStr k ++ ":" ++ serialize v ++ "," ++ serializeObj fs

end

/-- JavaScript truthiness of a JSON value (objects and arrays are truthy,
empty strings, zero, false, null are falsy). -/
def jsTruthy : Json → Bool
  | .null => false
  | .bool b => b
  | .num q => if q.man = 0 then false else true
  | .str s => if s = "" then false else true
  | .arr _ => true
  | .obj _ => true

mutual

/-- JavaScript ToString coercion of a JSON value (as used by the Error
constructor and template literals). -/
def jsToString : Json → String
  | .null => "null"
  | .bool b => if b then "true" else "false"
  | .num q => jsNumToString q
  | .str s => s
  | .arr xs => jsJoin xs
  | .obj _ => "[object Object]"

/-- Array.prototype.toString: elements joined by commas, null elements
printing as the empty string. -/
def jsJoin : List Json → String
  | [] => ""
  | [.null] => ""
  | [j] => jsToString j
  | .null :: js => "," ++ jsJoin js
  | j :: js => jsToString j ++ "," ++ jsJoin js

end

/-- JavaScript property read on a parsed JSON value: a lookup on an object
(the last duplicate key wins, as with JSON.parse), undefined (none) on any
value without properties.  Property access on null throws a TypeError and is
handled separately by the caller. -/
def jsGet (j : Json) (k : String) : Option Json :=
  match j with
  | .obj fs => ((fs.filter (fun p => p.1 = k)).getLast?).map (fun p => p.2)
  | _ => none

/- ===================== Upload proxy (src/unnamed/part_000) ============= -/

/-- A multipart form-data value: a file (name and contents) or a plain
string field. -/
inductive FormValue where
  | file (name : String) (content : String)
  | str (s : String)

/-- JavaScript falsiness of a form-data value: an empty string is falsy,
every File object and nonempty string is truthy (the `!file` guard). -/
def FormValue.falsy : FormValue → Bool
  | .str s => s == ""
  | .file _ _ => false

/-- Multipart form data: an ordered list of field entries. -/
def FormData0 : Type := List (String × FormValue)

/-- FormData.get: the first value stored under the key, or null. -/
def formGet (fd : List (String × FormValue)) (k : String) : Option FormValue :=
  (fd.find? (fun p => p.1 = k)).map (fun p => p.2)

/-- Behaviour of the external geolocation backend on the proxy's fetch:
either the fetch rejects (transport failure) or an HTTP reply arrives. -/
inductive BackendBehavior where
  | netFail (msg : String)
  | reply (status : Nat) (body : String)

/-- An HTTP response produced by NextResponse.json: a status code and a JSON
body. -/
structure HttpOut where
  status : Nat
  body : Json

/-- Response.ok: status in the inclusive range 200..299. -/
def resOk (st : Nat) : Bool := 200 ≤ st && st ≤ 299

/-- The 400 body for a missing file field. -/
def noFileBody : Json := .obj [("error", .str "No file uploaded")]

/-- The 500 body of the proxy's catch-all: a generic error message with the
exception's message in a separate details field. -/
def internalErr (detail : String) : Json :=
  .obj [("error", .str "Internal Server Error"), ("details", .str detail)]

/-- The fixed path appended to the backend base URL. -/
def geolocatePath : String := "/geolocate"

/-- The POST handler of src/unnamed/part_000.  Inputs: the result of
request.formData() (error = the exception message when parsing the multipart
body throws), the value of process.env.GEO_API as read during this request,
the backend's behaviour on the forwarded fetch, and the message of the
SyntaxError raised if the backend's success body fails to parse as JSON.
Output: the backend call made, if any (URL and forwarded value), and the
HTTP response returned to the client.  A template literal interpolates a
missing environment variable as the string "undefined". -/
def POST (form : Except String (List (String × FormValue)))
    (geoApiEnv : Option String) (backend : BackendBehavior)
    (exnMsg : String) : Option (String × FormValue) × HttpOut :=
  match form with
  | .error m => (none, ⟨500, internalErr m⟩)
  | .ok fd =>
    match formGet fd "file" with
    | none => (none, ⟨400, noFileBody⟩)
    | some v =>
      if v.falsy then (none, ⟨400, noFileBody⟩)
      else
        let url := (geoApiEnv.getD "undefined") ++ geolocatePath
        match backend with
        | .netFail m => (some (url, v), ⟨500, internalErr m⟩)
        | .reply st body =>
          if resOk st then
            match jsonParse body with
            | some j => (some (url, v), ⟨200, j⟩)
            | none => (some (url, v), ⟨500, internalErr exnMsg⟩)
          else
            (some (url, v),
              ⟨st, .obj [("error", .str ("GeoAPI error: " ++ body))]⟩)

/- ================== Client (src/app/page.tsx) ========================= -/

/-- What the client's fetch to /api/v1/geolocate observes: a transport
failure (the fetch rejects with a TypeError carrying msg) or an HTTP
response with a status and a raw body text. -/
inductive ProxyResp where
  | netFail (msg : String)
  | http (status : Nat) (body : String)

/-- The `err.message || "Something went wrong."` fallback in handleLocate's
catch clause: an empty message is falsy and replaced by the generic one. -/
def orGeneric (s : String) : String :=
  if s = "" then "Something went wrong." else s

/-- The message of the Error thrown for a non-ok response:
`errData.error || Server Error: status`, where errData is the parsed body or
an empty object when parsing fails, reading .error of null raises a
TypeError (message exnMsg), and a truthy error value is coerced to a string
by the Error constructor. -/
def clientErrMsg (exnMsg : String) (st : Nat) (b : String) : String :=
  match (jsonParse b).getD (.obj []) with
  | .null => orGeneric exnMsg
  | e =>
    match jsGet e "error" with
    | some jv =>
      if jsTruthy jv then orGeneric (jsToString jv)
      else orGeneric ("Server Error: " ++ natToString st)
    | none => orGeneric ("Server Error: " ++ natToString st)

/-- The response processing of handleLocate (src/app/page.tsx lines 86-103):
ok responses are parsed and stored as the result; everything else becomes an
error message.  exnMsg is the message of the engine-raised exception in the
run, when one occurs (SyntaxError from res.json() on the ok path, TypeError
from reading a property of null). -/
def clientOutcome (exnMsg : String) : ProxyResp → Except String Json
  | .netFail m => .error (orGeneric m)
  | .http st b =>
    if resOk st then
      match jsonParse b with
      | some j => .ok j
      | none => .error (orGeneric exnMsg)
    else .error (clientErrMsg exnMsg st b)

/-- Serialization of a proxy HTTP response into what the client's fetch
observes. -/
def proxyToClient (out : HttpOut) : ProxyResp :=
  .http out.status (serialize out.body)

/- Rendering of the result panel (src/app/page.tsx lines 224-248). -/

/-- toFixed(d) of a JavaScript number modelled as an exact decimal: round
to d decimal digits (ties toward the larger value, i.e. the floor of
`x * 10 ^ d + 1 / 2`, computed here over integers) and print with exactly d
fractional digits. -/
def toFixed (d : Nat) (x : Dec) : String :=
  let n : Int := Int.fdiv (2 * x.man * 10 ^ d + 10 ^ x.exp) (2 * 10 ^ x.exp)
  let a := n.natAbs
  let sign := if n < 0 then "-" else ""
  if d = 0 then sign ++ natToString a
  else
    let frac := natToString (a % 10 ^ d)
    sign ++ natToString (a / 10 ^ d) ++ "." ++
      String.mk (List.replicate (d - frac.length) '0') ++ frac

/-- The latitude cell: result.lat.toFixed(5).  None models the TypeError
raised when the field is not a number. -/
def renderLat (res : Json) : Option String :=
  match jsGet res "lat" with
  | some (.num q) => some (toFixed 5 q)
  | _ => none

/-- The longitude cell: result.lon.toFixed(5). -/
def renderLon (res : Json) : Option String :=
  match jsGet res "lon" with
  | some (.num q) => some (toFixed 5 q)
  | _ => none

/-- The confidence text: (result.confidence * 100).toFixed(1) followed by a
percent sign. -/
def renderConfidence (res : Json) : Option String :=
  match jsGet res "confidence" with
  | some (.num q) => some (toFixed 1 (q.mul (Dec.ofNat 100)) ++ "%")
  | _ => none

/-- Template-literal interpolation of a property read (undefined prints as
"undefined"). -/
def tmplVal : Option Json → String
  | none => "undefined"
  | some j => jsToString j

/-- The map link href:
`https://www.google.com/maps/search/?api=1&query=lat,lon` with the raw
number values interpolated. -/
def mapHref (res : Json) : String :=
  "https://www.google.com/maps/search/?api=1&query=" ++
    tmplVal (jsGet res "lat") ++ "," ++ tmplVal (jsGet res "lon")

/- ============ Client state machine (GeoPage, src/app/page.tsx) ========= -/

/-- The React state of GeoPage (lines 13-17), with files identified by a
numeric id, plus the multiset of in-flight fetches to the proxy (the code
keeps these implicitly as suspended handleLocate invocations). -/
structure ClientState where
  imageFile : Option Nat
  previewUrl : Option Nat
  loading : Bool
  result : Option Json
  error : Option String
  pending : List Nat

/-- The initial state of the component: every useState starts at null or
false, nothing in flight. -/
def initState : ClientState :=
  ⟨none, none, false, none, none, []⟩

/-- Outcome of the Paste button's clipboard read: an image item found, no
image item present, or the read throwing (permission denied). -/
inductive PasteOutcome where
  | found (f : Nat)
  | noImage
  | denied

/-- User-visible events driving GeoPage.  `select` covers onFileChange and
the global paste listener (both call handleFileSelection); `pasteClick` is
the Paste button; `clickLocate` is the Locate button, whose handler only
runs when the button is enabled (`disabled=!imageFile or loading`);
`respond` is the completion of an in-flight fetch, processed by
handleLocate's continuation.  The continuation's awaits (json parsing) and
its state writes are collapsed into one step; since its writes do not read
the component state, every finer interleaving reaches the same states. -/
inductive Event where
  | select (f : Nat)
  | pasteClick (o : PasteOutcome)
  | clickLocate
  | respond (r : ProxyResp) (exnMsg : String)

/-- handleFileSelection (lines 42-47): clear error and result, store the
file and a fresh preview URL. -/
def handleFileSelection (s : ClientState) (f : Nat) : ClientState :=
  { s with error := none, result := none,
           imageFile := some f, previewUrl := some f }

/-- One step of the GeoPage state machine. -/
def step (s : ClientState) : Event → ClientState
  | .select f => handleFileSelection s f
  | .pasteClick (.found f) => handleFileSelection s f
  | .pasteClick .noImage =>
    { s with error := some "No image found in clipboard." }
  | .pasteClick .denied =>
    { s with error := some "Clipboard access denied. Try Ctrl+V." }
  | .clickLocate =>
    match s.imageFile with
    | none => s
    | some f =>
      if s.loading then s
      else
        { s with loading := true, error := none, result := none,
                 pending := s.pending ++ [f] }
  | .respond r exnMsg =>
    match s.pending with
    | [] => s
    | _ :: rest =>
      match clientOutcome exnMsg r with
      | .ok j =>
        { s with result := some j, loading := false, pending := rest }
      | .error m =>
        { s with error := some m, loading := false, pending := rest }

/-- Run the machine from the initial state over a list of events. -/
def run (es : List Event) : ClientState :=
  es.foldl step initState

/-- A state is reachable when some event sequence produces it. -/
def Reachable (s : ClientState) : Prop :=
  ∃ es, run es = s

/-- The two error messages onPasteClick can set (lines 69 and 72). -/
def clipMsg (m : String) : Prop :=
  m = "No image found in clipboard." ∨
  m = "Clipboard access denied. Try Ctrl+V."

/- ===================== Reachability invariant ========================= -/

/-- Invariant of the GeoPage machine: loading tracks the in-flight fetches,
at most one fetch is in flight, the result is clear while a fetch is in
flight, any error present during a fetch is a clipboard error, and whenever
a result and an error are displayed together the error is a clipboard
error. -/
def Inv (s : ClientState) : Prop :=
  (s.loading = false → s.pending = []) ∧
  s.pending.length ≤ 1 ∧
  (s.pending ≠ [] → s.result = none) ∧
  (s.pending ≠ [] → s.error = none ∨ ∃ m, s.error = some m ∧ clipMsg m) ∧
  (∀ m, s.result.isSome = true → s.error = some m → clipMsg m)

lemma inv_initState : Inv initState := by
  refine ⟨fun _ => rfl, by simp [initState], fun h => absurd rfl h,
    fun h => absurd rfl h, fun m hr _ => ?_⟩
  simp [initState] at hr

lemma clickLocate_noop_of_loading (s : ClientState) (h : s.loading = true) :
    step s Event.clickLocate = s := by
  match hi : s.imageFile with
  | none => simp only [step, hi]
  | some f => simp only [step, hi, h, if_pos]

lemma inv_step (s : ClientState) (e : Event) (h : Inv s) : Inv (step s e) := by
  obtain ⟨h1, h2, h3, h4, h5⟩ := h
  cases e with
  | select f =>
    refine ⟨h1, h2, fun _ => rfl, fun hp => Or.inl rfl, fun m hr _ => ?_⟩
    simp [step, handleFileSelection] at hr
  | pasteClick o =>
    cases o with
    | found f =>
      refine ⟨h1, h2, fun _ => rfl, fun hp => Or.inl rfl, fun m hr _ => ?_⟩
      simp [step, handleFileSelection] at hr
    | noImage =>
      refine ⟨h1, h2, h3, fun hp => Or.inr ⟨_, rfl, Or.inl rfl⟩,
        fun m hr he => ?_⟩
      simp only [step] at he
      cases he
      exact Or.inl rfl
    | denied =>
      refine ⟨h1, h2, h3, fun hp => Or.inr ⟨_, rfl, Or.inr rfl⟩,
        fun m hr he => ?_⟩
      simp only [step] at he
      cases he
      exact Or.inr rfl
  | clickLocate =>
    match hi : s.imageFile with
    | none =>
      simp only [step, hi]
      exact ⟨h1, h2, h3, h4, h5⟩
    | some f =>
      cases hl : s.loading with
      | true =>
        rw [clickLocate_noop_of_loading s hl]
        exact ⟨h1, h2, h3, h4, h5⟩
      | false =>
        have hstep : step s Event.clickLocate =
            { s with loading := true, error := none, result := none,
                     pending := s.pending ++ [f] } := by
          simp [step, hi, hl]
        rw [hstep]
        have hp := h1 hl
        have hlen : (s.pending ++ [f]).length ≤ 1 := by rw [hp]; simp
        refine ⟨?_, ?_, ?_, ?_, ?_⟩
        · intro hc
          exact absurd hc (by simp)
        · exact hlen
        · intro hc
          rfl
        · intro hc
          exact Or.inl rfl
        · intro m hr he
          exact absurd he (by simp)
  | respond r exn =>
    match hp : s.pending with
    | [] =>
      simp only [step, hp]
      exact ⟨h1, h2, h3, h4, h5⟩
    | p :: rest =>
      have hrest : rest = [] := by
        have hlen := h2
        rw [hp] at hlen
        simpa using hlen
      have hne : s.pending ≠ [] := by rw [hp]; simp
      simp only [step, hp]
      cases ho : clientOutcome exn r with
      | ok j =>
        refine ⟨fun _ => hrest, by simp [hrest], fun hc => ?_,
          fun hc => ?_, fun m hr he => ?_⟩
        · rw [hrest] at hc; exact absurd rfl hc
        · rw [hrest] at hc; exact absurd rfl hc
        · rcases h4 hne with he0 | ⟨m0, he0, hc0⟩
          · rw [he0] at he; cases he
          · rw [he0] at he; cases he; exact hc0
      | error m0 =>
        refine ⟨fun _ => hrest, by simp [hrest], fun hc => ?_,
          fun hc => ?_, fun m hr he => ?_⟩
        · rw [hrest] at hc; exact absurd rfl hc
        · rw [hrest] at hc; exact absurd rfl hc
        · have := h3 hne
          rw [this] at hr
          simp at hr

lemma inv_foldl (es : List Event) :
    ∀ s, Inv s → Inv (es.foldl step s) := by
  induction es with
  | nil => exact fun s h => h
  | cons e es ih => exact fun s h => ih _ (inv_step s e h)

lemma inv_run (es : List Event) : Inv (run es) :=
  inv_foldl es initState inv_initState

/-- When the file-field guard passes, the proxy always issues exactly one
backend call, to the URL built from the GEO_API value observed during this
request, forwarding the field value verbatim. -/
lemma post_call_eq (fd : List (String × FormValue)) (env : Option String)
    (bb : BackendBehavior) (exn : String) (v : FormValue)
    (hv : formGet fd "file" = some v) (hf : v.falsy = false) :
    (POST (Except.ok fd) env bb exn).1
      = some ((env.getD "undefined") ++ geolocatePath, v) := by
  cases bb with
  | netFail m => simp [POST, hv, hf]
  | reply st body =>
    by_cases hok : resOk st = true
    · cases hp : jsonParse body with
      | some j => simp [POST, hv, hf, hok, hp]
      | none => simp [POST, hv, hf, hok, hp]
    · have hok2 : resOk st = false := by
        revert hok
        cases resOk st <;> simp
      simp [POST, hv, hf, hok2]

/- ========================= Claim theorems ============================= -/

/-- Claim C3: in every reachable client state at most one submission is in
flight, and a Submit attempt while Loading (the Locate button being
disabled) changes no state and issues no network call. -/
theorem spec_C3 (es : List Event) :
    (run es).pending.length ≤ 1 ∧
    ((run es).loading = true → step (run es) Event.clickLocate = run es) :=
  ⟨(inv_run es).2.1, fun h => clickLocate_noop_of_loading (run es) h⟩

/-- Witness for C3 at a concrete reachable Loading state. -/
theorem spec_C3_witness :
    (run [Event.select 1, Event.clickLocate]).pending.length ≤ 1 ∧
    step (run [Event.select 1, Event.clickLocate]) Event.clickLocate
      = run [Event.select 1, Event.clickLocate] :=
  ⟨(spec_C3 [Event.select 1, Event.clickLocate]).1,
   (spec_C3 [Event.select 1, Event.clickLocate]).2 rfl⟩

/-- Claim C4 counterexample: a reachable state displays a non-null result
and a non-null error at the same time (submit succeeds, then the Paste
button finds no image in the clipboard, which sets the error without
clearing the result). -/
theorem spec_C4_counterexample :
    ¬ ∀ s : ClientState, Reachable s →
      ¬(s.result.isSome = true ∧ s.error.isSome = true) := by
  intro h
  exact h (run [Event.select 1, Event.clickLocate,
      Event.respond (ProxyResp.http 200 "\x7b\x7d") "e",
      Event.pasteClick PasteOutcome.noImage])
    ⟨[Event.select 1, Event.clickLocate,
      Event.respond (ProxyResp.http 200 "\x7b\x7d") "e",
      Event.pasteClick PasteOutcome.noImage], rfl⟩
    ⟨rfl, rfl⟩

/-- Claim C4 as amended: the four request states are not mutually exclusive
in general, but whenever a result and an error are displayed together, the
error is one of the two clipboard messages of onPasteClick; the submission
flow itself never displays both. -/
theorem spec_C4 (es : List Event) (m : String)
    (hr : (run es).result.isSome = true) (he : (run es).error = some m) :
    clipMsg m :=
  (inv_run es).2.2.2.2 m hr he

/-- Witness for C4 at the concrete reachable state of the counterexample
trace. -/
theorem spec_C4_witness : clipMsg "No image found in clipboard." :=
  spec_C4 [Event.select 1, Event.clickLocate,
    Event.respond (ProxyResp.http 200 "\x7b\x7d") "e",
    Event.pasteClick PasteOutcome.noImage] "No image found in clipboard."
    rfl rfl

/-- Claim C2, evaluated at the failing interleaving: after submit, a new
selection clears the result, but when the stale success response then
arrives, handleLocate's continuation stores it unconditionally, so the
result cleared by the newer selection does not remain cleared and is shown
next to the newly selected image. -/
theorem spec_C2_eval :
    (run [Event.select 1, Event.clickLocate, Event.select 2]).result.isSome
        = false ∧
    (run [Event.select 1, Event.clickLocate, Event.select 2,
      Event.respond (ProxyResp.http 200
        "\x7b\"lat\":1,\"lon\":2,\"confidence\":0.5\x7d") "e"]).result.isSome
        = true ∧
    (run [Event.select 1, Event.clickLocate, Event.select 2,
      Event.respond (ProxyResp.http 200
        "\x7b\"lat\":1,\"lon\":2,\"confidence\":0.5\x7d") "e"]).imageFile
        = some 2 :=
  ⟨rfl, rfl, rfl⟩

/-- Claim C1 counterexample: with the real backend behind the proxy
replying HTTP 500 with body containing error "model unavailable", the
client's displayed message is not "model unavailable" (the proxy wraps the
raw backend body). -/
theorem spec_C1_counterexample :
    (run [Event.select 1, Event.clickLocate,
      Event.respond (proxyToClient (POST
        (Except.ok [("file", FormValue.file "img.png" "BYTES")])
        (some "http://backend") (BackendBehavior.reply 500
          "\x7b\"error\":\"model unavailable\"\x7d") "e1").2) "e2"]).error
      ≠ some "model unavailable" := by
  intro h
  have heq : (run [Event.select 1, Event.clickLocate,
      Event.respond (proxyToClient (POST
        (Except.ok [("file", FormValue.file "img.png" "BYTES")])
        (some "http://backend") (BackendBehavior.reply 500
          "\x7b\"error\":\"model unavailable\"\x7d") "e1").2) "e2"]).error
      = some "GeoAPI error: \x7b\"error\":\"model unavailable\"\x7d" := rfl
  rw [heq] at h
  exact absurd (Option.some.inj h) (by decide)

/-- Claim C1 as amended: when the backend behind the proxy replies HTTP 500
with body containing error "model unavailable", the client ends in the
Error state displaying the proxy-wrapped message, which is "GeoAPI error: "
followed by the backend's raw body text, and no result panel is displayed
(the result stays null). -/
theorem spec_C1 (f : Nat) (env : Option String) (name content e1 e2 : String) :
    (run [Event.select f, Event.clickLocate,
      Event.respond (proxyToClient (POST
        (Except.ok [("file", FormValue.file name content)]) env
        (BackendBehavior.reply 500
          "\x7b\"error\":\"model unavailable\"\x7d") e1).2) e2]).error
      = some "GeoAPI error: \x7b\"error\":\"model unavailable\"\x7d" ∧
    (run [Event.select f, Event.clickLocate,
      Event.respond (proxyToClient (POST
        (Except.ok [("file", FormValue.file name content)]) env
        (BackendBehavior.reply 500
          "\x7b\"error\":\"model unavailable\"\x7d") e1).2) e2]).result.isSome
      = false :=
  ⟨rfl, rfl⟩

/-- Claim C5: when the backend replies 200 with lat 48.8566, lon 2.3522,
confidence 0.87, the client ends with a result panel displayed whose
latitude cell shows "48.85660", longitude cell "2.35220", confidence
"87.0%", and whose map link contains "48.8566,2.3522" (it ends with that
substring, the URL being the fixed map search URL followed by it). -/
theorem spec_C5 (f : Nat) (env : Option String) (name content e1 e2 : String) :
    (run [Event.select f, Event.clickLocate,
      Event.respond (proxyToClient (POST
        (Except.ok [("file", FormValue.file name content)]) env
        (BackendBehavior.reply 200
          "\x7b\"lat\":48.8566,\"lon\":2.3522,\"confidence\":0.87\x7d")
        e1).2) e2]).result.isSome = true ∧
    renderLat ((run [Event.select f, Event.clickLocate,
      Event.respond (proxyToClient (POST
        (Except.ok [("file", FormValue.file name content)]) env
        (BackendBehavior.reply 200
          "\x7b\"lat\":48.8566,\"lon\":2.3522,\"confidence\":0.87\x7d")
        e1).2) e2]).result.getD Json.null) = some "48.85660" ∧
    renderLon ((run [Event.select f, Event.clickLocate,
      Event.respond (proxyToClient (POST
        (Except.ok [("file", FormValue.file name content)]) env
        (BackendBehavior.reply 200
          "\x7b\"lat\":48.8566,\"lon\":2.3522,\"confidence\":0.87\x7d")
        e1).2) e2]).result.getD Json.null) = some "2.35220" ∧
    renderConfidence ((run [Event.select f, Event.clickLocate,
      Event.respond (proxyToClient (POST
        (Except.ok [("file", FormValue.file name content)]) env
        (BackendBehavior.reply 200
          "\x7b\"lat\":48.8566,\"lon\":2.3522,\"confidence\":0.87\x7d")
        e1).2) e2]).result.getD Json.null) = some "87.0%" ∧
    mapHref ((run [Event.select f, Event.clickLocate,
      Event.respond (proxyToClient (POST
        (Except.ok [("file", FormValue.file name content)]) env
        (BackendBehavior.reply 200
          "\x7b\"lat\":48.8566,\"lon\":2.3522,\"confidence\":0.87\x7d")
        e1).2) e2]).result.getD Json.null)
      = "https://www.google.com/maps/search/?api=1&query="
        ++ "48.8566,2.3522" := by
  have hres : (run [Event.select f, Event.clickLocate,
      Event.respond (proxyToClient (POST
        (Except.ok [("file", FormValue.file name content)]) env
        (BackendBehavior.reply 200
          "\x7b\"lat\":48.8566,\"lon\":2.3522,\"confidence\":0.87\x7d")
        e1).2) e2]).result
      = some (Json.obj [("lat", Json.num ⟨488566, 4⟩),
          ("lon", Json.num ⟨23522, 4⟩),
          ("confidence", Json.num ⟨87, 2⟩)]) := rfl
  rw [hres]
  exact ⟨rfl, rfl, rfl, rfl, rfl⟩

/-- Claim C6 counterexample: a 2xx response whose body is valid JSON but
lacks the expected lat/lon/confidence fields is stored as a Success result,
not mapped to Error. -/
theorem spec_C6_counterexample :
    clientOutcome "Unexpected end of JSON input"
      (ProxyResp.http 200 "\x7b\x7d") = Except.ok (Json.obj []) := rfl

/-- Claim C6 as amended: network failure, a non-2xx response, and a 2xx
response whose body is not valid JSON all map to Error (with the message of
clientErrMsg for non-2xx: the body's error field when truthy, else a generic
status-code message; and the exception message, or the generic fallback, for
the other two); but every 2xx response whose body parses as JSON becomes a
Success result holding exactly the parsed value, even when the expected
fields are absent — and those are the only ways to reach Success. -/
theorem spec_C6 (exn m b : String) (st : Nat) :
    (clientOutcome exn (ProxyResp.netFail m) = Except.error (orGeneric m)) ∧
    (resOk st = false →
      clientOutcome exn (ProxyResp.http st b)
        = Except.error (clientErrMsg exn st b)) ∧
    (resOk st = true → jsonParse b = none →
      clientOutcome exn (ProxyResp.http st b)
        = Except.error (orGeneric exn)) ∧
    (∀ j, resOk st = true → jsonParse b = some j →
      clientOutcome exn (ProxyResp.http st b) = Except.ok j) ∧
    (∀ j, clientOutcome exn (ProxyResp.http st b) = Except.ok j →
      resOk st = true ∧ jsonParse b = some j) := by
  refine ⟨rfl, ?_, ?_, ?_, ?_⟩
  · intro h
    simp [clientOutcome, h]
  · intro h1 h2
    simp [clientOutcome, h1, h2]
  · intro j h1 h2
    simp [clientOutcome, h1, h2]
  · intro j h
    by_cases hok : resOk st = true
    · refine ⟨hok, ?_⟩
      simp only [clientOutcome, hok, if_true] at h
      cases hp : jsonParse b with
      | some j2 =>
        rw [hp] at h
        simp only [Except.ok.injEq] at h
        rw [h]
      | none =>
        rw [hp] at h
        simp at h
    · have hok2 : resOk st = false := by
        revert hok
        cases resOk st <;> simp
      simp only [clientOutcome, hok2] at h
      simp at h

/-- Witness for C6, applying the amended theorem at concrete responses: a
404 with an unparseable body yields a generic status message, a 200 with an
unparseable body yields the exception message, and a 200 with an empty JSON
object — a body lacking every expected field — becomes a Success result
holding the parsed object. -/
theorem spec_C6_witness :
    clientOutcome "E" (ProxyResp.http 404 "nope")
        = Except.error "Server Error: 404" ∧
    clientOutcome "E" (ProxyResp.http 200 "nope") = Except.error "E" ∧
    clientOutcome "E" (ProxyResp.http 200 "\x7b\x7d")
        = Except.ok (Json.obj []) ∧
    (resOk 200 = true ∧ jsonParse "\x7b\x7d" = some (Json.obj [])) :=
  ⟨(spec_C6 "E" "m" "nope" 404).2.1 rfl,
   (spec_C6 "E" "m" "nope" 200).2.2.1 rfl rfl,
   (spec_C6 "E" "m" "\x7b\x7d" 200).2.2.2.1 (Json.obj []) rfl rfl,
   (spec_C6 "E" "m" "\x7b\x7d" 200).2.2.2.2 (Json.obj []) rfl⟩

/-- Claim C7 counterexample: a multipart request whose file field is
present but holds the empty string is answered 400 with no backend call,
although the field is not absent. -/
theorem spec_C7_counterexample :
    (POST (Except.ok [("file", FormValue.str "")]) (some "http://backend")
        (BackendBehavior.reply 200 "\x7b\x7d") "e").2.status = 400 ∧
    (POST (Except.ok [("file", FormValue.str "")]) (some "http://backend")
        (BackendBehavior.reply 200 "\x7b\x7d") "e").1 = none ∧
    formGet [("file", FormValue.str "")] "file" = some (FormValue.str "") :=
  ⟨rfl, rfl, rfl⟩

/-- Claim C7 as amended: Forward returns the Bad Request response (400 with
the 'No file uploaded' body) and makes no backend call iff the file field
is absent or holds a falsy value (such as the empty string); whenever a
non-falsy value is present, it is re-packaged and POSTed to the configured
backend base URL plus the fixed /geolocate path.  (A 400 status can still
be passed through from the backend, but with a different body.) -/
theorem spec_C7 (fd : List (String × FormValue)) (env : Option String)
    (bb : BackendBehavior) (exn : String) :
    (((POST (Except.ok fd) env bb exn).2 = ⟨400, noFileBody⟩ ∧
        (POST (Except.ok fd) env bb exn).1 = none) ↔
      (formGet fd "file").all FormValue.falsy = true) ∧
    (∀ v, formGet fd "file" = some v → v.falsy = false →
      (POST (Except.ok fd) env bb exn).1
        = some ((env.getD "undefined") ++ geolocatePath, v)) := by
  refine ⟨⟨?_, ?_⟩, fun v hv hf => post_call_eq fd env bb exn v hv hf⟩
  · rintro ⟨hout, hnone⟩
    match hv : formGet fd "file" with
    | none => rfl
    | some v =>
      by_cases hf : v.falsy = true
      · simp [Option.all, hv, hf]
      · have hf2 : v.falsy = false := by
          revert hf
          cases v.falsy <;> simp
        have := post_call_eq fd env bb exn v hv hf2
        rw [hnone] at this
        cases this
  · intro hall
    match hv : formGet fd "file" with
    | none => exact ⟨by simp [POST, hv], by simp [POST, hv]⟩
    | some v =>
      have hf : v.falsy = true := by
        rw [hv] at hall
        simpa [Option.all] using hall
      exact ⟨by simp [POST, hv, hf], by simp [POST, hv, hf]⟩

/-- Witness for C7 at a concrete request holding a file value. -/
theorem spec_C7_witness :
    (POST (Except.ok [("file", FormValue.file "img.png" "DATA")])
        (some "http://svc") (BackendBehavior.reply 200 "\x7b\x7d") "e").1
      = some ("http://svc/geolocate", FormValue.file "img.png" "DATA") :=
  (spec_C7 [("file", FormValue.file "img.png" "DATA")] (some "http://svc")
    (BackendBehavior.reply 200 "\x7b\x7d") "e").2
    (FormValue.file "img.png" "DATA") rfl rfl

/-- Claim C8: every transport failure of the proxy's fetch, every exception
while reading the request, and every parse failure of a backend success
body yields a 500 whose body is the generic "Internal Server Error" message
with the diagnostic detail in the separate details field; and when the
client receives such a response it displays exactly the generic message —
the details field is never the primary user-facing message. -/
theorem spec_C8 (fd : List (String × FormValue)) (env : Option String)
    (bb : BackendBehavior) (m exn exn2 : String) (v : FormValue)
    (hv : formGet fd "file" = some v) (hf : v.falsy = false) :
    ((POST (Except.ok fd) env (BackendBehavior.netFail m) exn).2
        = ⟨500, internalErr m⟩) ∧
    ((POST (Except.error m) env bb exn).2 = ⟨500, internalErr m⟩) ∧
    (∀ b, jsonParse b = none →
      (POST (Except.ok fd) env (BackendBehavior.reply 200 b) exn).2
        = ⟨500, internalErr exn⟩) ∧
    (∀ body, jsonParse body = some (internalErr m) →
      clientOutcome exn2 (ProxyResp.http 500 body)
        = Except.error "Internal Server Error") := by
  refine ⟨by simp [POST, hv, hf], rfl, ?_, ?_⟩
  · intro b hb
    simp [POST, hv, hf, resOk, hb]
  · intro body hb
    have hmsg : clientErrMsg exn2 500 body = "Internal Server Error" := by
      unfold clientErrMsg
      rw [hb]
      rfl
    have hout : clientOutcome exn2 (ProxyResp.http 500 body)
        = Except.error (clientErrMsg exn2 500 body) := rfl
    rw [hout, hmsg]

/-- Witness for C8 on concrete failures, including the client rendering of
a serialized internal-error body. -/
theorem spec_C8_witness :
    ((POST (Except.ok [("file", FormValue.file "a" "b")]) (some "u")
        (BackendBehavior.netFail "boom") "E").2 = ⟨500, internalErr "boom"⟩) ∧
    ((POST (Except.error "boom") (some "u")
        (BackendBehavior.reply 200 "x") "E").2 = ⟨500, internalErr "boom"⟩) ∧
    ((POST (Except.ok [("file", FormValue.file "a" "b")]) (some "u")
        (BackendBehavior.reply 200 "notjson") "E").2
      = ⟨500, internalErr "E"⟩) ∧
    (clientOutcome "E2" (ProxyResp.http 500 (serialize (internalErr "boom")))
      = Except.error "Internal Server Error") :=
  ⟨(spec_C8 [("file", FormValue.file "a" "b")] (some "u")
      (BackendBehavior.reply 200 "x") "boom" "E" "E2"
      (FormValue.file "a" "b") rfl rfl).1,
   (spec_C8 [("file", FormValue.file "a" "b")] (some "u")
      (BackendBehavior.reply 200 "x") "boom" "E" "E2"
      (FormValue.file "a" "b") rfl rfl).2.1,
   (spec_C8 [("file", FormValue.file "a" "b")] (some "u")
      (BackendBehavior.reply 200 "x") "boom" "E" "E2"
      (FormValue.file "a" "b") rfl rfl).2.2.1 "notjson" rfl,
   (spec_C8 [("file", FormValue.file "a" "b")] (some "u")
      (BackendBehavior.reply 200 "x") "boom" "E" "E2"
      (FormValue.file "a" "b") rfl rfl).2.2.2
     (serialize (internalErr "boom")) rfl⟩

/-- Claim C9 counterexample: two requests handled with different values of
the GEO_API environment variable target different backend URLs, so the
backend base URL is not immutable across requests. -/
theorem spec_C9_counterexample :
    (POST (Except.ok [("file", FormValue.file "img" "DATA")])
        (some "http://first") (BackendBehavior.reply 200 "\x7b\x7d") "e").1
      = some ("http://first/geolocate", FormValue.file "img" "DATA") ∧
    (POST (Except.ok [("file", FormValue.file "img" "DATA")])
        (some "http://second") (BackendBehavior.reply 200 "\x7b\x7d") "e").1
      = some ("http://second/geolocate", FormValue.file "img" "DATA") ∧
    ("http://first/geolocate" : String) ≠ "http://second/geolocate" :=
  ⟨rfl, rfl, by decide⟩

/-- Claim C9 as amended: the backend base URL is read from the GEO_API
environment variable during each request (process.env.GEO_API is read
inside the handler), so every forwarded request targets the environment
value observed at request time, followed by the fixed /geolocate path. -/
theorem spec_C9 (fd : List (String × FormValue)) (env : Option String)
    (bb : BackendBehavior) (exn : String) (v : FormValue)
    (hv : formGet fd "file" = some v) (hf : v.falsy = false) :
    (POST (Except.ok fd) env bb exn).1
      = some ((env.getD "undefined") ++ geolocatePath, v) :=
  post_call_eq fd env bb exn v hv hf

/-- Witness for C9 at a concrete request and environment. -/
theorem spec_C9_witness :
    (POST (Except.ok [("file", FormValue.file "pic" "P")])
        (some "http://host") (BackendBehavior.netFail "x") "e").1
      = some ("http://host/geolocate", FormValue.file "pic" "P") :=
  spec_C9 [("file", FormValue.file "pic" "P")] (some "http://host")
    (BackendBehavior.netFail "x") "e" (FormValue.file "pic" "P") rfl rfl

/-- Claim C10: a file field holding the empty string (falsy) is treated
exactly as an absent field — same 400 'No file uploaded' response and no
backend call — while any nonempty string value passes the presence guard
and is forwarded to the backend verbatim, with no check that it is a file
or an image media type. -/
theorem spec_C10 (env : Option String) (bb : BackendBehavior) (exn : String)
    (s : String) (h : (s == "") = false) :
    (POST (Except.ok [("file", FormValue.str "")]) env bb exn
        = POST (Except.ok []) env bb exn) ∧
    ((POST (Except.ok [("file", FormValue.str "")]) env bb exn).2
        = ⟨400, noFileBody⟩) ∧
    ((POST (Except.ok [("file", FormValue.str s)]) env bb exn).1
        = some ((env.getD "undefined") ++ geolocatePath, FormValue.str s)) :=
  ⟨rfl, rfl,
    post_call_eq [("file", FormValue.str s)] env bb exn (FormValue.str s)
      rfl (by simp [FormValue.falsy, h])⟩

/-- Witness for C10 at the nonempty string value "x". -/
theorem spec_C10_witness :
    (POST (Except.ok [("file", FormValue.str "")]) (some "http://svc")
        (BackendBehavior.reply 200 "ok") "e"
      = POST (Except.ok []) (some "http://svc")
        (BackendBehavior.reply 200 "ok") "e") ∧
    ((POST (Except.ok [("file", FormValue.str "")]) (some "http://svc")
        (BackendBehavior.reply 200 "ok") "e").2 = ⟨400, noFileBody⟩) ∧
    ((POST (Except.ok [("file", FormValue.str "x")]) (some "http://svc")
        (BackendBehavior.reply 200 "ok") "e").1
      = some ("http://svc/geolocate", FormValue.str "x")) :=
  spec_C10 (some "http://svc") (BackendBehavior.reply 200 "ok") "e" "x" rfl

end GeoWeb
